import Mathlib

/-!
Verification of the deterministic pattern-based log classification engine of
DevOps-GPT (translated from src/model.py, class MistralAgent).

Modelling conventions:
- Python strings are Lean String values; log lines are assumed newline-free
  (the validator splits multiline input on newlines before the engine runs),
  so a regular expression fragment X.*Y is modelled as "an occurrence of X
  followed, anywhere later in the line, by an occurrence of Y".
- Regular expressions that are alternations of literals are modelled as
  substring tests (case-insensitive where the source passes re.IGNORECASE).
- The Python set results['suspicious_ips'] is modelled as an insertion-ordered
  duplicate-free list; len(set) is the list length.
- Python dicts with domain-dependent keys are modelled as one record holding
  every counter, initialised to zero/empty; dict.get(k, 0) on an absent key
  and a present zero field are observationally identical because counters of
  a non-detected domain are never incremented.
- datetime.now() is modelled by threading an opaque timestamp string through
  the analysis entry point.
-/

/-- One character of a Python string; case folding is ASCII, matching the
identifiers and keywords used by the patterns in src/model.py. -/
def lowChar (c : Char) : Char := c.toLower

/-- Lowercase an entire string (Python str.lower for the ASCII range). -/
def lowerStr (s : String) : String := String.mk (s.data.map lowChar)

/-- Character-list prefix test (avoids any library prefix helpers). -/
def pfx : List Char → List Char → Bool
  | [], _ => true
  | _ :: _, [] => false
  | a :: n, b :: h => a == b && pfx n h

/-- Does predicate p hold of some suffix of the character list? -/
def anySuffix (p : List Char → Bool) : List Char → Bool
  | [] => p []
  | c :: t => p (c :: t) || anySuffix p t

/-- Substring containment on character lists. -/
def containsSub (needle hay : List Char) : Bool := anySuffix (pfx needle) hay

/-- Python `needle in s` (case-sensitive substring test). -/
def csHas (needle : String) (s : String) : Bool := containsSub needle.data s.data

/-- Case-insensitive substring test; callers pass a lowercase needle. -/
def ciHas (needle : String) (s : String) : Bool := csHas needle (lowerStr s)

/-- re.search of an alternation of literals with re.IGNORECASE. -/
def ciAny (needles : List String) (s : String) : Bool := needles.any (fun n => ciHas n s)

/-- Case-sensitive alternation of literals. -/
def csAny (needles : List String) (s : String) : Bool := needles.any (fun n => csHas n s)

/-- Drop through the haystack past the first occurrence of needle; none when
the needle does not occur. -/
def dropPast (needle : List Char) : List Char → Option (List Char)
  | [] => if needle.isEmpty then some [] else none
  | c :: t => if pfx needle (c :: t) then some ((c :: t).drop needle.length) else dropPast needle t

/-- Tokens occurring in order, with arbitrary gaps: the model of a regex
tok0.*tok1.*... on a newline-free line. -/
def seqHasAux : List (List Char) → List Char → Bool
  | [], _ => true
  | n :: rest, hay =>
    match dropPast n hay with
    | some h => seqHasAux rest h
    | none => false

/-- Case-insensitive ordered-occurrence test (regex with .* gaps, IGNORECASE). -/
def ciSeq (toks : List String) (s : String) : Bool :=
  seqHasAux (toks.map (fun t => t.data)) (lowerStr s).data

/-- Case-sensitive ordered-occurrence test. -/
def csSeq (toks : List String) (s : String) : Bool :=
  seqHasAux (toks.map (fun t => t.data)) s.data

/-- Consume a literal token. -/
def chompLit (lit : List Char) (cs : List Char) : Option (List Char) :=
  if pfx lit cs then some (cs.drop lit.length) else none

/-- Consume one regex digit. -/
def chompDigit : List Char → Option (List Char)
  | c :: t => if c.isDigit then some t else none
  | [] => none

/-- Consume a maximal nonempty digit run (regex digit-plus before a literal dot). -/
def chompDigits : List Char → Option (List Char)
  | c :: t => if c.isDigit then some (t.dropWhile Char.isDigit) else none
  | [] => none

/-- Consume a single expected character. -/
def chompChar (c : Char) : List Char → Option (List Char)
  | x :: t => if x == c then some t else none
  | [] => none

/-- Regex whitespace class backslash-s: space, tab, newline, CR, FF, VT. -/
def isReWs (c : Char) : Bool :=
  c == ' ' || c == '\t' || c == '\n' || c == Char.ofNat 13 || c == Char.ofNat 12 || c == Char.ofNat 11

/-- Consume a maximal nonempty whitespace run (safe because the following
pattern character is never whitespace). -/
def chompWs : List Char → Option (List Char)
  | c :: t => if isReWs c then some (t.dropWhile isReWs) else none
  | [] => none

/-- Match of the dotted-quad regex digits-dot-digits-dot-digits-dot-digits at
the head of the list. -/
def quadAt (cs : List Char) : Bool :=
  (chompDigits cs |>.bind (chompChar '.') |>.bind chompDigits |>.bind (chompChar '.')
    |>.bind chompDigits |>.bind (chompChar '.') |>.bind chompDigits).isSome

/-- re.search of the dotted-quad pattern anywhere in the string. -/
def hasDottedQuad (s : String) : Bool := anySuffix quadAt s.data

/-- Match of the web status-code regex HTTP/d.d quote ws+ lead d d at the
head of the list; lead is the leading status digit from the pattern. -/
def httpCodeAt (lead : Char) (cs : List Char) : Bool :=
  (chompLit "HTTP/".data cs |>.bind chompDigit |>.bind (chompChar '.') |>.bind chompDigit
    |>.bind (chompChar '"') |>.bind chompWs |>.bind (chompChar lead)
    |>.bind chompDigit |>.bind chompDigit).isSome

/-- re.search of the 4xx or 5xx access-log status regex (case-sensitive in
the source: the web branch of _analyze_log_by_type passes no flags). -/
def hasHttpCode (lead : Char) (s : String) : Bool := anySuffix (httpCodeAt lead) s.data

/-- A nonzero digit followed by at least three digits, at list head
(the regex fragment for a large millisecond count). -/
def bigNumAt : List Char → Bool
  | c :: a :: b :: d :: _ =>
    (decide ('1' ≤ c) && decide (c ≤ '9')) && (a.isDigit && b.isDigit && d.isDigit)
  | _ => false

/-- The slow_request web pattern: request_time, or response_time followed by
a 4-or-more-digit number starting with a nonzero digit (case-sensitive). -/
def slowReq (s : String) : Bool :=
  csHas "request_time" s ||
    (match dropPast "response_time".data s.data with
     | some rest => anySuffix bigNumAt rest
     | none => false)

/-- Characters admitted by the rhost= capture group class (digits, dot,
hyphen, word characters). -/
def isHostCh (c : Char) : Bool := c.isAlphanum || c == '.' || c == '-' || c == '_'

/-- Try to match rhost= followed by a nonempty host-character run at the head
of the list, returning the captured group. -/
def rhostAt (cs : List Char) : Option String :=
  match chompLit "rhost=".data cs with
  | some rest =>
    match rest with
    | c :: _ => if isHostCh c then some (String.mk (rest.takeWhile isHostCh)) else none
    | [] => none
  | none => none

/-- Leftmost match of the rhost capture regex (re.search group 1). -/
def findRhostAux : List Char → Option String
  | [] => none
  | c :: t =>
    match rhostAt (c :: t) with
    | some ip => some ip
    | none => findRhostAux t

/-- Extract the suspicious source identifier from a security line. -/
def findRhost (s : String) : Option String := findRhostAux s.data

/-- The general error_patterns list of _enhanced_pattern_analysis, one
disjunct per source pattern, all searched with re.IGNORECASE. -/
def matchesError (s : String) : Bool :=
  ciAny ["error", "fatal", "critical", "alert", "fail"] s ||
  ciAny ["failed", "failure"] s ||
  ciHas "timeout" s ||
  ciHas "exception" s ||
  ciAny ["out of memory", "outofmemoryerror"] s ||
  ciAny ["connection refused", "connection reset"] s ||
  ciSeq ["port", "already in use"] s ||
  ciSeq ["bind", "address already in use"] s ||
  ciAny ["exited abnormally", "crashed", "panic"] s ||
  ciAny ["stack trace", "stacktrace"] s ||
  ciAny ["null pointer", "segmentation fault"] s

/-- The general warning_patterns list. -/
def matchesWarning (s : String) : Bool :=
  ciAny ["warning", "warn"] s ||
  ciHas "deprecated" s ||
  ciAny ["high memory usage", "memory leak"] s ||
  ciAny ["slow response", "performance"] s ||
  ciAny ["retry", "retrying", "attempting"] s ||
  ciAny ["disk space", "storage full"] s

/-- The general info_patterns list. -/
def matchesInfo (s : String) : Bool :=
  ciAny ["info", "information"] s ||
  ciAny ["started", "starting", "initialized"] s ||
  ciAny ["completed", "finished", "success"] s ||
  ciAny ["connected", "connection established"] s

/-- log.upper() contains CRITICAL, FATAL or ALERT. -/
def hasCritToken (s : String) : Bool := ciAny ["critical", "fatal", "alert"] s

/-- The accumulator dictionary analysis_results of _enhanced_pattern_analysis,
with every domain-specific counter present (absent keys read as zero via
dict.get in the source, which is observationally the same). Python keys
4xx_errors and 5xx_errors are spelled errors4xx and errors5xx. -/
structure Counters where
  total_logs : Nat
  log_type : String
  error_count : Nat
  warning_count : Nat
  info_count : Nat
  critical_issues : List String
  error_issues : List String
  warning_issues : List String
  info_issues : List String
  security_events : Nat
  auth_failures : Nat
  brute_force_attempts : Nat
  unknown_users : Nat
  suspicious_ips : List String
  root_attempts : Nat
  security_issues : List String
  suspicious_activities : List String
  deployment_issues : Nat
  performance_issues : Nat
  database_issues : Nat
  api_errors : Nat
  resource_issues : Nat
  service_failures : Nat
  disk_issues : Nat
  network_issues : Nat
  http_errors : Nat
  errors4xx : Nat
  errors5xx : Nat
  slow_requests : Nat
deriving Repr, DecidableEq

/-- Fresh accumulator state for a batch of n lines of the detected type. -/
def initCounters (n : Nat) (lt : String) : Counters where
  total_logs := n
  log_type := lt
  error_count := 0
  warning_count := 0
  info_count := 0
  critical_issues := []
  error_issues := []
  warning_issues := []
  info_issues := []
  security_events := 0
  auth_failures := 0
  brute_force_attempts := 0
  unknown_users := 0
  suspicious_ips := []
  root_attempts := 0
  security_issues := []
  suspicious_activities := []
  deployment_issues := 0
  performance_issues := 0
  database_issues := 0
  api_errors := 0
  resource_issues := 0
  service_failures := 0
  disk_issues := 0
  network_issues := 0
  http_errors := 0
  errors4xx := 0
  errors5xx := 0
  slow_requests := 0

/-- Python set.add on the insertion-ordered duplicate-free list model. -/
def addIp (ip : String) (ips : List String) : List String :=
  if ip ∈ ips then ips else ips ++ [ip]

/-- The general-severity part of the per-line loop body of
_enhanced_pattern_analysis: an if/elif/elif over the three pattern groups. -/
def generalStep (log : String) (r : Counters) : Counters :=
  if matchesError log then
    let r := { r with error_count := r.error_count + 1 }
    if hasCritToken log then { r with critical_issues := r.critical_issues ++ [log] }
    else { r with error_issues := r.error_issues ++ [log] }
  else if matchesWarning log then
    { r with warning_count := r.warning_count + 1, warning_issues := r.warning_issues ++ [log] }
  else if matchesInfo log then
    { r with info_count := r.info_count + 1, info_issues := r.info_issues ++ [log] }
  else r

/-- The security deployment_error style patterns, from _get_specific_patterns
and _analyze_log_by_type; each definition names the source rule. -/
def sshAuthFailure (s : String) : Bool := ciSeq ["sshd", "authentication failure"] s

/-- The unknown_user security pattern. -/
def unknownUser (s : String) : Bool := ciHas "check pass; user unknown" s

/-- The application deployment_error pattern (IGNORECASE). -/
def deploymentError (s : String) : Bool :=
  ciHas "deploy" s || ciSeq ["container", "failed"] s || ciSeq ["image", "pull", "error"] s

/-- The application database_error pattern. -/
def databaseError (s : String) : Bool :=
  ciHas "database" s || ciHas "sql" s || ciSeq ["connection", "pool"] s || ciHas "deadlock" s

/-- The application api_error pattern. -/
def apiError (s : String) : Bool :=
  ciSeq ["api", "error"] s || ciSeq ["endpoint", "failed"] s || ciSeq ["service", "unavailable"] s

/-- The application performance_issue pattern. -/
def performanceIssue (s : String) : Bool :=
  ciSeq ["slow", "query"] s || ciHas "timeout" s || ciSeq ["memory", "leak"] s

/-- The system service_failure pattern. -/
def serviceFailure (s : String) : Bool :=
  ciHas "systemd" s || ciSeq ["service", "failed"] s || ciSeq ["daemon", "error"] s

/-- The system resource_issue pattern. -/
def resourceIssue (s : String) : Bool :=
  ciSeq ["out", "of", "memory"] s || ciSeq ["disk", "full"] s || ciSeq ["cpu", "usage"] s

/-- The system network_issue pattern. -/
def networkIssue (s : String) : Bool :=
  ciSeq ["network", "unreachable"] s || ciSeq ["dns", "error"] s || ciSeq ["connection", "refused"] s

/-- _analyze_log_by_type: the domain-specific part of the per-line loop body.
Within a domain the rules form an if/elif chain (first match wins). -/
def analyzeLogByType (log : String) (lt : String) (r : Counters) : Counters :=
  if lt = "security" then
    if sshAuthFailure log then
      let r := { r with
        auth_failures := r.auth_failures + 1,
        security_events := r.security_events + 1,
        security_issues := r.security_issues ++ [log] }
      let r :=
        match findRhost log with
        | some ip => { r with suspicious_ips := addIp ip r.suspicious_ips }
        | none => r
      if csHas "user=root" log then { r with root_attempts := r.root_attempts + 1 } else r
    else if unknownUser log then
      { r with
        unknown_users := r.unknown_users + 1,
        security_events := r.security_events + 1,
        suspicious_activities := r.suspicious_activities ++ [log] }
    else r
  else if lt = "web" then
    if hasHttpCode '4' log then
      { r with errors4xx := r.errors4xx + 1, http_errors := r.http_errors + 1 }
    else if hasHttpCode '5' log then
      { r with errors5xx := r.errors5xx + 1, http_errors := r.http_errors + 1 }
    else if slowReq log then
      { r with slow_requests := r.slow_requests + 1 }
    else r
  else if lt = "application" then
    if deploymentError log then { r with deployment_issues := r.deployment_issues + 1 }
    else if databaseError log then { r with database_issues := r.database_issues + 1 }
    else if apiError log then { r with api_errors := r.api_errors + 1 }
    else if performanceIssue log then { r with performance_issues := r.performance_issues + 1 }
    else r
  else if lt = "system" then
    if serviceFailure log then { r with service_failures := r.service_failures + 1 }
    else if resourceIssue log then { r with resource_issues := r.resource_issues + 1 }
    else if networkIssue log then { r with network_issues := r.network_issues + 1 }
    else r
  else r

/-- One iteration of the per-line loop: general severity check first, then
the domain-specific check on the same line. -/
def lineStep (lt : String) (r : Counters) (log : String) : Counters :=
  analyzeLogByType log lt (generalStep log r)

/-- The full classification pass of _enhanced_pattern_analysis over a batch:
fresh counters, then one pass over every line. -/
def classify (logs : List String) (lt : String) : Counters :=
  logs.foldl (lineStep lt) (initCounters logs.length lt)

/-- Hint keyword test for the security group of _detect_log_type. -/
def secHint (c : String) : Bool := ciAny ["security", "auth", "ssh", "login"] c

/-- Hint keyword test for the web group. -/
def webHint (c : String) : Bool := ciAny ["web", "http", "nginx", "apache"] c

/-- Hint keyword test for the application group. -/
def appHint (c : String) : Bool := ciAny ["app", "application", "deploy"] c

/-- Hint keyword test for the system group. -/
def sysHint (c : String) : Bool := ciAny ["system", "kernel", "service"] c

/-- Per-line security content indicator of _detect_log_type. -/
def secIndicator (log : String) : Bool :=
  ciAny ["sshd", "authentication", "login", "password", "security"] log

/-- Per-line web content indicator: case-sensitive tokens or a dotted quad. -/
def webIndicator (log : String) : Bool :=
  csAny ["GET", "POST", "HTTP", "200", "404", "500"] log || hasDottedQuad log

/-- Per-line application content indicator. -/
def appIndicator (log : String) : Bool :=
  ciAny ["deploy", "container", "docker", "kubernetes", "application"] log

/-- Per-line system content indicator. -/
def sysIndicator (log : String) : Bool :=
  ciAny ["kernel", "systemd", "service", "daemon", "process"] log

/-- Security content score over a window of lines. -/
def secScore (w : List String) : Nat := w.countP (fun log => secIndicator log)

/-- Web content score over a window of lines. -/
def webScore (w : List String) : Nat := w.countP (fun log => webIndicator log)

/-- Application content score over a window of lines. -/
def appScore (w : List String) : Nat := w.countP (fun log => appIndicator log)

/-- System content score over a window of lines. -/
def sysScore (w : List String) : Nat := w.countP (fun log => sysIndicator log)

/-- Content-based part of _detect_log_type: score the first 20 lines, return
the best domain, first in order security, web, application, system on ties,
and general when every score is zero. -/
def contentDetect (logs : List String) : String :=
  let w := logs.take 20
  let sec := secScore w
  let web := webScore w
  let app := appScore w
  let sys := sysScore w
  let m := max (max (max sec web) app) sys
  if m = 0 then "general"
  else if sec = m then "security"
  else if web = m then "web"
  else if app = m then "application"
  else "system"

/-- _detect_log_type: a truthy context hint is scanned for the four keyword
groups in priority order; with no hint, or a hint matching no group, the
content of the batch decides. -/
def detectLogType (logs : List String) (context : Option String) : String :=
  match context with
  | some c =>
    if c = "" then contentDetect logs
    else if secHint c then "security"
    else if webHint c then "web"
    else if appHint c then "application"
    else if sysHint c then "system"
    else contentDetect logs
  | none => contentDetect logs

/-- The generic tail of _determine_status (reached when no domain rule fires). -/
def statusFallback (r : Counters) : String × String :=
  if r.error_count > 0 then ("ERROR", "MEDIUM")
  else if r.warning_count > 0 then ("WARNING", "LOW")
  else ("HEALTHY", "LOW")

/-- _determine_status: the severity decision table; first matching rule wins. -/
def determineStatus (r : Counters) (lt : String) : String × String :=
  if !r.critical_issues.isEmpty then ("CRITICAL", "HIGH")
  else if lt = "security" then
    if r.brute_force_attempts > 0 || r.auth_failures ≥ 10 then ("CRITICAL", "HIGH")
    else if r.auth_failures ≥ 3 || r.unknown_users ≥ 3 then ("ERROR", "MEDIUM")
    else statusFallback r
  else if lt = "web" then
    if r.errors5xx ≥ 10 then ("CRITICAL", "HIGH")
    else if r.errors5xx > 0 || r.errors4xx ≥ 20 then ("ERROR", "MEDIUM")
    else statusFallback r
  else if lt = "application" then
    if r.deployment_issues > 0 then ("ERROR", "MEDIUM")
    else if r.database_issues > 0 then ("ERROR", "MEDIUM")
    else statusFallback r
  else if lt = "system" then
    if r.service_failures > 0 then ("ERROR", "MEDIUM")
    else if r.resource_issues > 0 then ("WARNING", "MEDIUM")
    else statusFallback r
  else statusFallback r

/-- An ASCII single quote as a string, for rendering Python list reprs. -/
def sglq : String := String.singleton (Char.ofNat 39)

/-- Python repr of a list of plain strings (the captured host identifiers
contain no quotes, so repr always chooses single quotes). -/
def pyListRepr (xs : List String) : String :=
  "[" ++ String.intercalate ", " (xs.map (fun s => sglq ++ s ++ sglq)) ++ "]"

/-- The per-domain rule block of _generate_recommendations: each rule that
fires contributes its recommendations and fixes in source order. -/
def domainRules (r : Counters) (lt : String) : List String × List String :=
  if lt = "security" then
    let p1 : List String × List String :=
      if r.auth_failures ≥ 5 then
        (["🔐 High number of authentication failures detected",
          "🚨 Possible brute force attack in progress"],
         ["Configure fail2ban: sudo apt-get install fail2ban",
          "Disable password authentication, use SSH keys",
          "Change default SSH port from 22"])
      else ([], [])
    let p2 : List String × List String :=
      if !r.suspicious_ips.isEmpty then
        (["🛡️ Block suspicious IPs: " ++ pyListRepr (r.suspicious_ips.take 3)],
         ["Block IPs with iptables or firewall rules"])
      else ([], [])
    (p1.1 ++ p2.1, p1.2 ++ p2.2)
  else if lt = "web" then
    let p1 : List String × List String :=
      if r.errors5xx > 0 then
        (["🔴 Server errors detected - check application health",
          "📊 Monitor application performance and resources"],
         ["Check application logs for detailed errors",
          "Restart application services if needed",
          "Verify database connectivity"])
      else ([], [])
    let p2 : List String × List String :=
      if r.slow_requests > 0 then
        (["⚡ Slow requests detected - optimize performance"],
         ["Analyze slow query logs", "Add caching layers", "Optimize database queries"])
      else ([], [])
    (p1.1 ++ p2.1, p1.2 ++ p2.2)
  else if lt = "application" then
    let p1 : List String × List String :=
      if r.deployment_issues > 0 then
        (["🚀 Deployment issues detected",
          "🔄 Check container and service configurations"],
         ["Verify image availability and versions",
          "Check resource allocations",
          "Review deployment scripts"])
      else ([], [])
    let p2 : List String × List String :=
      if r.database_issues > 0 then
        (["🗄️ Database connectivity issues"],
         ["Check database service status",
          "Verify connection strings",
          "Monitor database performance"])
      else ([], [])
    (p1.1 ++ p2.1, p1.2 ++ p2.2)
  else if lt = "system" then
    let p1 : List String × List String :=
      if r.service_failures > 0 then
        (["⚙️ System service failures detected"],
         ["Check service status: systemctl status <service>",
          "Review service logs: journalctl -u <service>",
          "Restart failed services if needed"])
      else ([], [])
    let p2 : List String × List String :=
      if r.resource_issues > 0 then
        (["📈 System resource issues detected"],
         ["Check disk space: df -h",
          "Monitor memory usage: free -h",
          "Check CPU usage: top or htop"])
      else ([], [])
    (p1.1 ++ p2.1, p1.2 ++ p2.2)
  else ([], [])

/-- _generate_recommendations: domain rules, then the generic error rule,
then the positive fallback when no recommendation was produced. -/
def generateRecommendations (r : Counters) (lt : String) : List String × List String :=
  let d := domainRules r lt
  let g : List String × List String :=
    if r.error_count > 0 then
      (["⚠️ System errors require attention"],
       ["Review error logs for patterns", "Check system health and resources"])
    else ([], [])
  let recs := d.1 ++ g.1
  let fixes := d.2 ++ g.2
  if recs.isEmpty then
    (["✅ No critical issues detected"], fixes ++ ["Continue monitoring system health"])
  else (recs, fixes)

/-- _create_root_cause: sequential conditional appends onto the causes list,
translated clause for clause from the source. -/
def createRootCause (r : Counters) (lt : String) : String :=
  let causes : List String := []
  let causes :=
    if lt = "security" then
      let causes :=
        if r.auth_failures > 0 then
          causes ++ [toString r.auth_failures ++ " authentication failures"]
        else causes
      if !r.suspicious_ips.isEmpty then
        causes ++ ["Suspicious activity from " ++ toString r.suspicious_ips.length ++ " IPs"]
      else causes
    else if lt = "web" then
      let causes :=
        if r.errors5xx > 0 then causes ++ [toString r.errors5xx ++ " server errors"] else causes
      if r.errors4xx > 0 then causes ++ [toString r.errors4xx ++ " client errors"] else causes
    else if lt = "application" then
      let causes :=
        if r.deployment_issues > 0 then
          causes ++ [toString r.deployment_issues ++ " deployment issues"]
        else causes
      if r.database_issues > 0 then
        causes ++ [toString r.database_issues ++ " database problems"]
      else causes
    else if lt = "system" then
      let causes :=
        if r.service_failures > 0 then
          causes ++ [toString r.service_failures ++ " service failures"]
        else causes
      if r.resource_issues > 0 then
        causes ++ [toString r.resource_issues ++ " resource problems"]
      else causes
    else causes
  let causes :=
    if r.error_count > 0 then causes ++ [toString r.error_count ++ " general errors"] else causes
  if causes.isEmpty then "Normal " ++ lt ++ " activity patterns"
  else String.intercalate "; " causes

/-- Specification-side ordered rule list for the root-cause synthesizer: the
indicator pairs the code consults per domain, each with its rendered clause,
followed by the generic error clause. -/
def rootCauseRules (r : Counters) (lt : String) : List (Bool × String) :=
  (if lt = "security" then
    [(decide (r.auth_failures > 0), toString r.auth_failures ++ " authentication failures"),
     (!r.suspicious_ips.isEmpty,
      "Suspicious activity from " ++ toString r.suspicious_ips.length ++ " IPs")]
  else if lt = "web" then
    [(decide (r.errors5xx > 0), toString r.errors5xx ++ " server errors"),
     (decide (r.errors4xx > 0), toString r.errors4xx ++ " client errors")]
  else if lt = "application" then
    [(decide (r.deployment_issues > 0), toString r.deployment_issues ++ " deployment issues"),
     (decide (r.database_issues > 0), toString r.database_issues ++ " database problems")]
  else if lt = "system" then
    [(decide (r.service_failures > 0), toString r.service_failures ++ " service failures"),
     (decide (r.resource_issues > 0), toString r.resource_issues ++ " resource problems")]
  else []) ++
  [(decide (r.error_count > 0), toString r.error_count ++ " general errors")]

/-- Specification-side synthesizer: join the clauses of the fired rules, or
the fixed normal-activity string when none fired. -/
def rootCauseSpec (r : Counters) (lt : String) : String :=
  let cs := (rootCauseRules r lt).filterMap (fun p => if p.1 then some p.2 else none)
  if cs.isEmpty then "Normal " ++ lt ++ " activity patterns"
  else String.intercalate "; " cs

/-- The summary sub-record of _create_summary: the base fields plus the
domain-specific numeric fields, kept as an ordered key list. -/
structure Summary where
  total_logs : Nat
  log_type : String
  error_count : Nat
  warning_count : Nat
  info_count : Nat
  critical_issues : Nat
  extra : List (String × Nat)
deriving Repr, DecidableEq

/-- _create_summary: uncapped counts plus per-domain metrics. -/
def createSummary (r : Counters) : Summary where
  total_logs := r.total_logs
  log_type := r.log_type
  error_count := r.error_count
  warning_count := r.warning_count
  info_count := r.info_count
  critical_issues := r.critical_issues.length
  extra :=
    if r.log_type = "security" then
      [("security_events", r.security_events),
       ("auth_failures", r.auth_failures),
       ("suspicious_ips", r.suspicious_ips.length)]
    else if r.log_type = "web" then
      [("http_errors", r.http_errors),
       ("4xx_errors", r.errors4xx),
       ("5xx_errors", r.errors5xx)]
    else if r.log_type = "application" then
      [("deployment_issues", r.deployment_issues),
       ("database_issues", r.database_issues),
       ("api_errors", r.api_errors)]
    else if r.log_type = "system" then
      [("service_failures", r.service_failures),
       ("resource_issues", r.resource_issues),
       ("network_issues", r.network_issues)]
    else []

/-- The issues sub-record of _format_issues: capped general buckets plus the
domain-specific buckets, kept as an ordered key list. -/
structure Issues where
  critical : List String
  errors : List String
  warnings : List String
  extra : List (String × List String)
deriving Repr, DecidableEq

/-- _format_issues: first 3 lines per general bucket; for security also the
first 5 captured security lines and up to 10 suspicious identifiers. -/
def formatIssues (r : Counters) : Issues where
  critical := r.critical_issues.take 3
  errors := r.error_issues.take 3
  warnings := r.warning_issues.take 3
  extra :=
    if r.log_type = "security" then
      [("security", r.security_issues.take 5),
       ("suspicious_ips", r.suspicious_ips.take 10)]
    else []

/-- A value of the type-specific analysis dict: a label or a list of labels. -/
inductive TSVal where
  | s (v : String)
  | l (v : List String)
deriving Repr, DecidableEq

/-- Percentage with one decimal, computed in exact arithmetic: the model of
the Python float format of http_errors / max(total_logs, 1) * 100 (the float
rounding of .1f is approximated by round-half-up on the exact rational). -/
def fmtRate (h t : Nat) : String :=
  let t1 := max t 1
  let tenths := (h * 2000 + t1) / (2 * t1)
  toString (tenths / 10) ++ "." ++ toString (tenths % 10) ++ "%"

/-- _create_type_specific_analysis: qualitative per-domain labels. -/
def createTypeSpecific (r : Counters) (lt : String) : List (String × TSVal) :=
  if lt = "security" then
    [("threat_level", .s (if r.auth_failures ≥ 10 then "HIGH"
        else if r.auth_failures > 0 then "MEDIUM" else "LOW")),
     ("attack_vectors", .l (if r.auth_failures ≥ 5 then ["Brute Force"] else [])),
     ("affected_services", .l (if r.auth_failures > 0 then ["SSH/SSHD"] else []))]
  else if lt = "web" then
    [("availability", .s (if r.errors5xx ≥ 10 then "DOWN"
        else if r.errors5xx > 0 then "DEGRADED" else "UP")),
     ("performance", .s (if r.slow_requests > 0 then "SLOW" else "NORMAL")),
     ("error_rate", .s (fmtRate r.http_errors r.total_logs))]
  else if lt = "application" then
    [("deployment_status", .s (if r.deployment_issues > 0 then "FAILED" else "SUCCESS")),
     ("database_health", .s (if r.database_issues > 0 then "ISSUES" else "HEALTHY")),
     ("api_status", .s (if r.api_errors > 0 then "ERRORS" else "NORMAL"))]
  else if lt = "system" then
    [("service_health", .s (if r.service_failures > 0 then "DEGRADED" else "HEALTHY")),
     ("resource_status", .s (if r.resource_issues > 0 then "CRITICAL" else "NORMAL")),
     ("network_status", .s (if r.network_issues > 0 then "ISSUES" else "STABLE"))]
  else
    [("general_health", .s (if r.error_count > 0 then "ISSUES" else "HEALTHY"))]

/-- Python str.title for the ASCII range: uppercase a letter that starts an
alphabetic run, lowercase the rest. -/
def titleAux : Bool → List Char → List Char
  | _, [] => []
  | prev, c :: t =>
    (if c.isAlpha then (if prev then c.toLower else c.toUpper) else c) :: titleAux c.isAlpha t

/-- str.title on a string. -/
def pyTitle (s : String) : String := String.mk (titleAux false s.data)

/-- The final record returned by _enhanced_pattern_analysis. -/
structure AnalysisRecord where
  status : String
  severity : String
  confidence : ℚ
  log_type : String
  summary : Summary
  issues : Issues
  root_cause : String
  recommendations : List String
  fixes : List String
  type_specific_analysis : List (String × TSVal)
  analysis_method : String
  timestamp : String
  context : String
deriving Repr, DecidableEq

/-- _enhanced_pattern_analysis: detect the domain, run the single
classification pass, then assemble the result. The wall-clock timestamp is
threaded in as the now argument. -/
def enhancedPatternAnalysis (logs : List String) (context : Option String)
    (now : String) : AnalysisRecord :=
  let lt := detectLogType logs context
  let r := classify logs lt
  let st := determineStatus r lt
  let rf := generateRecommendations r lt
  { status := st.1
    severity := st.2
    confidence := (9 : ℚ) / 10
    log_type := lt
    summary := createSummary r
    issues := formatIssues r
    root_cause := createRootCause r lt
    recommendations := rf.1
    fixes := rf.2
    type_specific_analysis := createTypeSpecific r lt
    analysis_method := "enhanced_" ++ lt ++ "_pattern_matching"
    timestamp := now
    context :=
      match context with
      | some c => if c = "" then pyTitle lt ++ " log analysis" else c
      | none => pyTitle lt ++ " log analysis" }

/-- Python str.strip whitespace class for the ASCII range: space, tab,
newline, CR, FF, VT. -/
def isPySpace (c : Char) : Bool :=
  c == ' ' || c == '\t' || c == '\n' || c == Char.ofNat 13 || c == Char.ofNat 12 || c == Char.ofNat 11

/-- Python str.strip on a character list: drop whitespace from both ends. -/
def pyStripList (l : List Char) : List Char :=
  ((l.dropWhile isPySpace).reverse.dropWhile isPySpace).reverse

/-- Python str.strip on a string. -/
def pyStrip (s : String) : String := String.mk (pyStripList s.data)

/-- The control characters that clean_log_line of validate_logs replaces by
a space: NUL, 1..8, and 14..31 excluding tab, newline, CR (those three are
below 14, so the exclusion is vacuous, as in the source). -/
def isBadCtl (c : Char) : Bool :=
  c.toNat == 0 || (1 ≤ c.toNat && c.toNat ≤ 8) ||
    (14 ≤ c.toNat && c.toNat ≤ 31 && !(c == '\t' || c == '\n' || c == Char.ofNat 13))

/-- clean_log_line: replace problematic control characters by spaces, then
strip the result. -/
def cleanLogLine (line : String) : String :=
  pyStrip (String.mk (line.data.map (fun c => if isBadCtl c then ' ' else c)))

/-- Python str.split on a single newline separator, accumulator form. -/
def splitNlAux (acc : List Char) : List Char → List String
  | [] => [String.mk acc.reverse]
  | c :: t =>
    if c = '\n' then String.mk acc.reverse :: splitNlAux [] t
    else splitNlAux (c :: acc) t

/-- Python s.split of a string on newlines (keeps empty fields, as Python
does when a separator is given). -/
def pySplitNl (s : String) : List String := splitNlAux [] s.data

/-- A value arriving in the logs field of LogAnalysisRequest. Non-string,
non-list values, and the elements of a list, are represented by the string
that Python str() renders them as, which is all validate_logs consumes: the
validator calls str() on every element before cleaning it. -/
inductive PyVal where
  | str (s : String)
  | list (xs : List String)
  | other (s : String)
deriving Repr, DecidableEq

/-- LogAnalysisRequest.validate_logs: split or wrap the input into a cleaned
list of lines, substituting a sentinel when nothing survives cleaning. -/
def validateLogs (v : PyVal) : List String :=
  match v with
  | .str s =>
    if s.data.contains '\n' then
      let lines := (pySplitNl s).filterMap
        (fun line => let c := cleanLogLine line; if c = "" then none else some c)
      if lines.isEmpty then ["No valid logs found"] else lines
    else
      let c := cleanLogLine s
      if c = "" then ["Empty log"] else [c]
  | .list xs =>
    let cleaned := xs.filterMap
      (fun x => let c := cleanLogLine x; if c = "" then none else some c)
    if cleaned.isEmpty then ["No valid logs found"] else cleaned
  | .other s =>
    let c := cleanLogLine s
    if c = "" then ["Invalid input"] else [c]

lemma generalStep_preserves_specific (log : String) (r : Counters) :
    (generalStep log r).brute_force_attempts = r.brute_force_attempts ∧
    (generalStep log r).auth_failures = r.auth_failures ∧
    (generalStep log r).unknown_users = r.unknown_users := by
  unfold generalStep
  repeat' split
  all_goals simp

lemma analyzeLogByType_preserves_general (log lt : String) (r : Counters) :
    (analyzeLogByType log lt r).error_count = r.error_count ∧
    (analyzeLogByType log lt r).warning_count = r.warning_count ∧
    (analyzeLogByType log lt r).info_count = r.info_count ∧
    (analyzeLogByType log lt r).critical_issues = r.critical_issues ∧
    (analyzeLogByType log lt r).error_issues = r.error_issues ∧
    (analyzeLogByType log lt r).warning_issues = r.warning_issues ∧
    (analyzeLogByType log lt r).info_issues = r.info_issues ∧
    (analyzeLogByType log lt r).brute_force_attempts = r.brute_force_attempts := by
  unfold analyzeLogByType
  repeat' split
  all_goals simp

lemma lineStep_brute_force (lt : String) (r : Counters) (log : String) :
    (lineStep lt r log).brute_force_attempts = r.brute_force_attempts := by
  unfold lineStep
  rw [(analyzeLogByType_preserves_general log lt (generalStep log r)).2.2.2.2.2.2.2]
  exact (generalStep_preserves_specific log r).1

lemma foldl_brute_force (lt : String) (logs : List String) (r : Counters) :
    (logs.foldl (lineStep lt) r).brute_force_attempts = r.brute_force_attempts := by
  induction logs generalizing r with
  | nil => rfl
  | cons a t ih => rw [List.foldl_cons, ih, lineStep_brute_force]

lemma classify_brute_force (logs : List String) (lt : String) :
    (classify logs lt).brute_force_attempts = 0 := by
  unfold classify
  rw [foldl_brute_force]
  rfl

lemma determineStatus_of_critical (r : Counters) (lt : String)
    (h : r.critical_issues ≠ []) : determineStatus r lt = ("CRITICAL", "HIGH") := by
  unfold determineStatus
  rw [if_pos]
  simp [List.isEmpty_iff, h]

lemma determineStatus_security_shape (r : Counters) (hc : r.critical_issues = [])
    (hb : r.brute_force_attempts = 0) :
    determineStatus r "security" =
      (if 10 ≤ r.auth_failures then (("CRITICAL", "HIGH") : String × String)
       else if 3 ≤ r.auth_failures ∨ 3 ≤ r.unknown_users then ("ERROR", "MEDIUM")
       else statusFallback r) := by
  unfold determineStatus
  rw [hc, hb]
  simp [ge_iff_le, Bool.or_comm]

/-- A batch of n SSH authentication-failure lines with distinct trailing
identifiers, matching the security ssh_auth_failure pattern. -/
def authBatch (n : Nat) : List String :=
  (List.range n).map (fun i => "sshd authentication failure " ++ toString (i + 1))

/-- Claim C1: on counters produced by the classification pass, a non-empty
critical_issues bucket forces CRITICAL/HIGH unconditionally; otherwise, for
the security domain, auth_failures at least 10 gives CRITICAL/HIGH while
auth_failures in [3, 10) with unknown_users below 3 gives ERROR/MEDIUM, and
the boundary sits exactly between 9 and 10, as witnessed by concrete batches
of 10 and 9 matching lines. -/
theorem claim1_security_status_boundaries (logs : List String) (lt : String) :
    ((classify logs lt).critical_issues ≠ [] →
      determineStatus (classify logs lt) lt = ("CRITICAL", "HIGH")) ∧
    ((classify logs "security").critical_issues = [] →
      (10 ≤ (classify logs "security").auth_failures →
        determineStatus (classify logs "security") "security" = ("CRITICAL", "HIGH")) ∧
      (3 ≤ (classify logs "security").auth_failures →
        (classify logs "security").auth_failures < 10 →
        (classify logs "security").unknown_users < 3 →
        determineStatus (classify logs "security") "security" = ("ERROR", "MEDIUM"))) ∧
    ((classify (authBatch 10) "security").auth_failures = 10 ∧
      (classify (authBatch 10) "security").critical_issues = [] ∧
      determineStatus (classify (authBatch 10) "security") "security" = ("CRITICAL", "HIGH")) ∧
    ((classify (authBatch 9) "security").auth_failures = 9 ∧
      (classify (authBatch 9) "security").critical_issues = [] ∧
      determineStatus (classify (authBatch 9) "security") "security" = ("ERROR", "MEDIUM")) := by
  refine ⟨determineStatus_of_critical _ lt, fun hc => ⟨fun h10 => ?_, fun h3 h10 hu => ?_⟩,
    by decide, by decide⟩
  · rw [determineStatus_security_shape _ hc (classify_brute_force logs "security"), if_pos h10]
  · rw [determineStatus_security_shape _ hc (classify_brute_force logs "security"),
      if_neg (by omega), if_pos (Or.inl h3)]

/-- Witness for C1 at the concrete 9-line boundary batch. -/
theorem claim1_witness :
    determineStatus (classify (authBatch 9) "security") "security" = ("ERROR", "MEDIUM") := by
  have h := (claim1_security_status_boundaries (authBatch 9) "security").2.1 (by decide)
  exact h.2 (by decide) (by decide) (by decide)

/-- Claim C10: the classification pass never increments brute_force_attempts
(for any detected domain it stays 0), so for security batches without
critical captures the CRITICAL/HIGH resolver branch, written as
brute_force_attempts greater than 0 or auth_failures at least 10, is decided
solely by auth_failures at least 10. -/
theorem claim10_brute_force_invariant (logs : List String) (lt : String) :
    (classify logs lt).brute_force_attempts = 0 ∧
    ((classify logs "security").critical_issues = [] →
      (determineStatus (classify logs "security") "security" = ("CRITICAL", "HIGH") ↔
        10 ≤ (classify logs "security").auth_failures)) := by
  refine ⟨classify_brute_force logs lt, fun hc => ?_⟩
  rw [determineStatus_security_shape _ hc (classify_brute_force logs "security")]
  by_cases h10 : 10 ≤ (classify logs "security").auth_failures
  · simp [h10]
  · rw [if_neg h10]
    have hne : (if 3 ≤ (classify logs "security").auth_failures ∨
          3 ≤ (classify logs "security").unknown_users then (("ERROR", "MEDIUM") : String × String)
        else statusFallback (classify logs "security")) ≠ ("CRITICAL", "HIGH") := by
      unfold statusFallback
      split_ifs <;> decide
    exact ⟨fun h => absurd h hne, fun h => absurd h h10⟩

/-- Witness for C10 at the empty batch. -/
theorem claim10_witness :
    (determineStatus (classify ([] : List String) "security") "security" = ("CRITICAL", "HIGH") ↔
      10 ≤ (classify ([] : List String) "security").auth_failures) :=
  (claim10_brute_force_invariant [] "security").2 (by decide)

/-- Claim C2: a non-empty context hint that contains a keyword of some
domain group decides the domain by the first matching group in the priority
order security, web, application, system; the batch content is never
consulted, and in particular a hint containing ssh always gives security. -/
theorem claim2_hint_priority (logs : List String) (c : String) (hne : c ≠ "") :
    (secHint c = true → detectLogType logs (some c) = "security") ∧
    (secHint c = false → webHint c = true → detectLogType logs (some c) = "web") ∧
    (secHint c = false → webHint c = false → appHint c = true →
      detectLogType logs (some c) = "application") ∧
    (secHint c = false → webHint c = false → appHint c = false → sysHint c = true →
      detectLogType logs (some c) = "system") ∧
    ((secHint c || webHint c || appHint c || sysHint c) = true →
      ∀ logs2, detectLogType logs (some c) = detectLogType logs2 (some c)) ∧
    (ciHas "ssh" c = true → detectLogType logs (some c) = "security") := by
  refine ⟨fun h1 => ?_, fun h1 h2 => ?_, fun h1 h2 h3 => ?_, fun h1 h2 h3 h4 => ?_,
    fun hany logs2 => ?_, fun hssh => ?_⟩
  · simp [detectLogType, hne, h1]
  · simp [detectLogType, hne, h1, h2]
  · simp [detectLogType, hne, h1, h2, h3]
  · simp [detectLogType, hne, h1, h2, h3, h4]
  · cases hs : secHint c <;> cases hw : webHint c <;> cases ha : appHint c <;>
      cases hy : sysHint c <;> simp_all [detectLogType, hne]
  · have h1 : secHint c = true := by
      simp only [secHint, ciAny, List.any_eq_true]
      exact ⟨"ssh", by simp, hssh⟩
    simp [detectLogType, hne, h1]

/-- Witness for C2: an ssh hint forces security on a web-looking batch. -/
theorem claim2_witness :
    detectLogType ["GET /x HTTP/1.1 200"] (some "ssh server") = "security" :=
  (claim2_hint_priority ["GET /x HTTP/1.1 200"] "ssh server" (by decide)).2.2.2.2.2 (by decide)

/-- Claim C3: the general severity classification of a line is mutually
exclusive, with precedence error, then warning, then info: a line matching
an error pattern bumps only error_count (captured into critical_issues when
it carries a CRITICAL, FATAL or ALERT token, into error_issues otherwise)
and never touches the warning or info counters, whatever else it matches; a
line matching no group leaves every general counter and bucket unchanged. -/
theorem claim3_severity_precedence (log lt : String) (r : Counters) :
    (matchesError log = true →
      (lineStep lt r log).error_count = r.error_count + 1 ∧
      (lineStep lt r log).warning_count = r.warning_count ∧
      (lineStep lt r log).info_count = r.info_count ∧
      (lineStep lt r log).warning_issues = r.warning_issues ∧
      (lineStep lt r log).info_issues = r.info_issues ∧
      (hasCritToken log = true →
        (lineStep lt r log).critical_issues = r.critical_issues ++ [log] ∧
        (lineStep lt r log).error_issues = r.error_issues) ∧
      (hasCritToken log = false →
        (lineStep lt r log).error_issues = r.error_issues ++ [log] ∧
        (lineStep lt r log).critical_issues = r.critical_issues)) ∧
    (matchesError log = false → matchesWarning log = true →
      (lineStep lt r log).warning_count = r.warning_count + 1 ∧
      (lineStep lt r log).warning_issues = r.warning_issues ++ [log] ∧
      (lineStep lt r log).error_count = r.error_count ∧
      (lineStep lt r log).info_count = r.info_count) ∧
    (matchesError log = false → matchesWarning log = false → matchesInfo log = false →
      (lineStep lt r log).error_count = r.error_count ∧
      (lineStep lt r log).warning_count = r.warning_count ∧
      (lineStep lt r log).info_count = r.info_count ∧
      (lineStep lt r log).critical_issues = r.critical_issues ∧
      (lineStep lt r log).error_issues = r.error_issues ∧
      (lineStep lt r log).warning_issues = r.warning_issues ∧
      (lineStep lt r log).info_issues = r.info_issues) := by
  obtain ⟨he, hw, hi, hci, hei, hwi, hii, _⟩ :=
    analyzeLogByType_preserves_general log lt (generalStep log r)
  refine ⟨fun hE => ?_, fun hE hW => ?_, fun hE hW hI => ?_⟩ <;>
    simp only [lineStep, he, hw, hi, hci, hei, hwi, hii] <;>
    unfold generalStep
  · rw [if_pos hE]
    refine ⟨by split <;> rfl, by split <;> rfl, by split <;> rfl, by split <;> rfl,
      by split <;> rfl, fun hCr => by rw [if_pos hCr]; exact ⟨rfl, rfl⟩,
      fun hCr => by rw [if_neg (by simp [hCr])]; exact ⟨rfl, rfl⟩⟩
  · rw [if_neg (by simp [hE]), if_pos hW]
    exact ⟨rfl, rfl, rfl, rfl⟩
  · rw [if_neg (by simp [hE]), if_neg (by simp [hW]), if_neg (by simp [hI])]
    exact ⟨rfl, rfl, rfl, rfl, rfl, rfl, rfl⟩

/-- Witness for C3 at a line carrying both an ERROR and a WARN token. -/
theorem claim3_witness :
    matchesWarning "ERROR WARN" = true ∧
    (lineStep "general" (initCounters 1 "general") "ERROR WARN").error_count =
      (initCounters 1 "general").error_count + 1 ∧
    (lineStep "general" (initCounters 1 "general") "ERROR WARN").warning_count =
      (initCounters 1 "general").warning_count := by
  have h := (claim3_severity_precedence "ERROR WARN" "general" (initCounters 1 "general")).1
    (by decide)
  exact ⟨by decide, h.1, h.2.1⟩

/-- The context hint is absent, empty, or matches no keyword group, so
content-based detection decides. -/
def hintMisses (context : Option String) : Prop :=
  match context with
  | none => True
  | some c => c = "" ∨
      (secHint c = false ∧ webHint c = false ∧ appHint c = false ∧ sysHint c = false)

lemma detect_no_hint (logs : List String) (c : Option String) (h : hintMisses c) :
    detectLogType logs c = contentDetect logs := by
  cases c with
  | none => rfl
  | some s =>
    rcases h with h | ⟨h1, h2, h3, h4⟩
    · simp [detectLogType, h]
    · by_cases h0 : s = ""
      · simp [detectLogType, h0]
      · simp [detectLogType, h0, h1, h2, h3, h4]

/-- Claim C4: with no usable hint, content detection scores only the first
20 lines (the batch beyond that window never changes the result), returns
general when all four scores are zero, and otherwise the highest-scoring
domain, ties broken in the fixed order security, web, application, system. -/
theorem claim4_content_detection (logs : List String) (c : Option String) (h : hintMisses c) :
    (detectLogType logs c = detectLogType (logs.take 20) c) ∧
    (secScore (logs.take 20) = 0 → webScore (logs.take 20) = 0 → appScore (logs.take 20) = 0 →
      sysScore (logs.take 20) = 0 → detectLogType logs c = "general") ∧
    (0 < secScore (logs.take 20) → webScore (logs.take 20) ≤ secScore (logs.take 20) →
      appScore (logs.take 20) ≤ secScore (logs.take 20) →
      sysScore (logs.take 20) ≤ secScore (logs.take 20) →
      detectLogType logs c = "security") ∧
    (0 < webScore (logs.take 20) → secScore (logs.take 20) < webScore (logs.take 20) →
      appScore (logs.take 20) ≤ webScore (logs.take 20) →
      sysScore (logs.take 20) ≤ webScore (logs.take 20) →
      detectLogType logs c = "web") ∧
    (0 < appScore (logs.take 20) → secScore (logs.take 20) < appScore (logs.take 20) →
      webScore (logs.take 20) < appScore (logs.take 20) →
      sysScore (logs.take 20) ≤ appScore (logs.take 20) →
      detectLogType logs c = "application") ∧
    (0 < sysScore (logs.take 20) → secScore (logs.take 20) < sysScore (logs.take 20) →
      webScore (logs.take 20) < sysScore (logs.take 20) →
      appScore (logs.take 20) < sysScore (logs.take 20) →
      detectLogType logs c = "system") := by
  rw [detect_no_hint logs c h, detect_no_hint (logs.take 20) c h]
  refine ⟨?_, fun h1 h2 h3 h4 => ?_, fun h0 hw ha hs => ?_, fun h0 hs ha hy => ?_,
    fun h0 hs hw hy => ?_, fun h0 hs hw ha => ?_⟩ <;>
    unfold contentDetect <;> dsimp only
  · rw [List.take_take]
    norm_num
  · rw [h1, h2, h3, h4]
    simp
  · rw [max_eq_left hw, max_eq_left ha, max_eq_left hs, if_neg (by omega), if_pos rfl]
  · rw [max_eq_right (le_of_lt hs), max_eq_left ha, max_eq_left hy,
      if_neg (by omega), if_neg (by omega), if_pos rfl]
  · rw [max_eq_right (max_le (le_of_lt hs) (le_of_lt hw)), max_eq_left hy,
      if_neg (by omega), if_neg (by omega), if_neg (by omega), if_pos rfl]
  · rw [max_eq_right
      (max_le (max_le (le_of_lt hs) (le_of_lt hw)) (le_of_lt ha)),
      if_neg (by omega), if_neg (by omega), if_neg (by omega), if_neg (by omega)]

/-- Witness for C4: a one-line sshd batch with no hint detects security. -/
theorem claim4_witness : detectLogType ["sshd login ok"] none = "security" :=
  (claim4_content_detection ["sshd login ok"] none trivial).2.2.1 (by decide) (by decide)
    (by decide) (by decide)

/-- The end-to-end capture-cap batch: ten lines all carrying a CRITICAL token. -/
def critBatch : List String := (List.range 10).map (fun i => "CRITICAL " ++ toString (i + 1))

/-- Claim C5: the assembled issues record truncates each general bucket to
its first 3 captured lines and the security bucket to its first 5, while the
summary counts stay uncapped; concretely, ten all-critical lines leave
exactly 3 entries in issues.critical but 10 in summary.critical_issues. -/
theorem claim5_capture_caps (r : Counters) :
    (formatIssues r).critical = r.critical_issues.take 3 ∧
    (formatIssues r).errors = r.error_issues.take 3 ∧
    (formatIssues r).warnings = r.warning_issues.take 3 ∧
    (createSummary r).critical_issues = r.critical_issues.length ∧
    (createSummary r).error_count = r.error_count ∧
    (createSummary r).warning_count = r.warning_count ∧
    (createSummary r).info_count = r.info_count ∧
    ((enhancedPatternAnalysis critBatch none "T").issues.critical.length = 3 ∧
      (enhancedPatternAnalysis critBatch none "T").summary.critical_issues = 10) ∧
    (r.log_type = "security" →
      (formatIssues r).extra = [("security", r.security_issues.take 5),
        ("suspicious_ips", r.suspicious_ips.take 10)]) := by
  refine ⟨rfl, rfl, rfl, rfl, rfl, rfl, rfl, by decide, fun hs => ?_⟩
  simp [formatIssues, hs]

/-- Witness for C5 at a concrete security counter state. -/
theorem claim5_witness :
    (formatIssues (initCounters 0 "security")).extra =
      [("security", []), ("suspicious_ips", [])] := by
  have h := (claim5_capture_caps (initCounters 0 "security")).2.2.2.2.2.2.2.2 rfl
  simpa using h

/-- Claim C6: the pattern-based analysis is deterministic: for a fixed batch
and context, every field of the result except the timestamp is independent
of the clock value threaded in. -/
theorem claim6_determinism (logs : List String) (c : Option String) (t1 t2 : String) :
    (enhancedPatternAnalysis logs c t1).status = (enhancedPatternAnalysis logs c t2).status ∧
    (enhancedPatternAnalysis logs c t1).severity = (enhancedPatternAnalysis logs c t2).severity ∧
    (enhancedPatternAnalysis logs c t1).confidence =
      (enhancedPatternAnalysis logs c t2).confidence ∧
    (enhancedPatternAnalysis logs c t1).log_type = (enhancedPatternAnalysis logs c t2).log_type ∧
    (enhancedPatternAnalysis logs c t1).summary = (enhancedPatternAnalysis logs c t2).summary ∧
    (enhancedPatternAnalysis logs c t1).issues = (enhancedPatternAnalysis logs c t2).issues ∧
    (enhancedPatternAnalysis logs c t1).root_cause =
      (enhancedPatternAnalysis logs c t2).root_cause ∧
    (enhancedPatternAnalysis logs c t1).recommendations =
      (enhancedPatternAnalysis logs c t2).recommendations ∧
    (enhancedPatternAnalysis logs c t1).fixes = (enhancedPatternAnalysis logs c t2).fixes ∧
    (enhancedPatternAnalysis logs c t1).type_specific_analysis =
      (enhancedPatternAnalysis logs c t2).type_specific_analysis ∧
    (enhancedPatternAnalysis logs c t1).analysis_method =
      (enhancedPatternAnalysis logs c t2).analysis_method ∧
    (enhancedPatternAnalysis logs c t1).context = (enhancedPatternAnalysis logs c t2).context :=
  ⟨rfl, rfl, rfl, rfl, rfl, rfl, rfl, rfl, rfl, rfl, rfl, rfl⟩

/-- The claim-C7 counterexample batch: three unknown-user security lines. -/
def unknownBatch : List String :=
  ["check pass; user unknown a", "check pass; user unknown b", "check pass; user unknown c"]

set_option maxHeartbeats 1600000 in
/-- Counterexample to C7 as stated: classification of three unknown-user
lines leaves the non-zero domain-specific counter unknown_users = 3, yet the
synthesizer produces no clause for it and returns the fixed normal-activity
string, not a semicolon-joined clause list with one clause per non-zero
domain-specific counter. -/
theorem claim7_counterexample :
    (classify unknownBatch "security").unknown_users = 3 ∧
    (classify unknownBatch "security").error_count = 0 ∧
    (classify unknownBatch "security").auth_failures = 0 ∧
    createRootCause (classify unknownBatch "security") "security" =
      "Normal security activity patterns" := by
  decide

/-- Claim C7 as amended: the synthesizer consults only a fixed ordered pair
of indicators per domain (security: auth_failures and the suspicious-IP set;
web: 5xx then 4xx; application: deployment then database; system: service
failures then resource issues) followed by the generic error_count rule; it
returns the semicolon-join of the clauses of the fired rules, and the fixed
normal-activity string when none fired. Other domain counters, such as
unknown_users, never contribute a clause. -/
theorem claim7_root_cause_amended (r : Counters) (lt : String) :
    createRootCause r lt = rootCauseSpec r lt := by
  unfold createRootCause rootCauseSpec rootCauseRules
  dsimp only
  by_cases hE : r.error_count > 0 <;>
    [skip; skip] <;>
    (by_cases h1 : lt = "security"
     · subst h1
       by_cases hA : r.auth_failures > 0 <;> by_cases hB : r.suspicious_ips.isEmpty <;>
         simp [hA, hB, hE]
     by_cases h2 : lt = "web"
     · subst h2
       by_cases hA : r.errors5xx > 0 <;> by_cases hB : r.errors4xx > 0 <;>
         simp [h1, hA, hB, hE]
     by_cases h3 : lt = "application"
     · subst h3
       by_cases hA : r.deployment_issues > 0 <;> by_cases hB : r.database_issues > 0 <;>
         simp [h1, h2, hA, hB, hE]
     by_cases h4 : lt = "system"
     · subst h4
       by_cases hA : r.service_failures > 0 <;> by_cases hB : r.resource_issues > 0 <;>
         simp [h1, h2, h3, hA, hB, hE]
     · simp [h1, h2, h3, h4, hE])

/-- No rule of the recommendation engine fires: every domain trigger for the
given domain is quiet and there are no general errors. -/
def noRuleFired (r : Counters) (lt : String) : Prop :=
  r.error_count = 0 ∧
  (lt = "security" → r.auth_failures < 5 ∧ r.suspicious_ips = []) ∧
  (lt = "web" → r.errors5xx = 0 ∧ r.slow_requests = 0) ∧
  (lt = "application" → r.deployment_issues = 0 ∧ r.database_issues = 0) ∧
  (lt = "system" → r.service_failures = 0 ∧ r.resource_issues = 0)

lemma domainRules_fixes (r : Counters) (lt : String) :
    (domainRules r lt).1 ≠ [] → (domainRules r lt).2 ≠ [] := by
  unfold domainRules
  split_ifs <;> simp_all

lemma domainRules_quiet (r : Counters) (lt : String) (h : noRuleFired r lt) :
    domainRules r lt = ([], []) := by
  obtain ⟨-, hs, hw, ha, hy⟩ := h
  unfold domainRules
  by_cases h1 : lt = "security"
  · obtain ⟨ha5, hip⟩ := hs h1
    simp [h1, hip, Nat.not_le_of_lt ha5]
  by_cases h2 : lt = "web"
  · obtain ⟨h5, hsl⟩ := hw h2
    simp [h1, h2, h5, hsl]
  by_cases h3 : lt = "application"
  · obtain ⟨hd, hb⟩ := ha h3
    simp [h1, h2, h3, hd, hb]
  by_cases h4 : lt = "system"
  · obtain ⟨hf, hr⟩ := hy h4
    simp [h1, h2, h3, h4, hf, hr]
  · simp [h1, h2, h3, h4]

/-- Claim C8: whenever error_count is positive the engine appends the
generic errors-require-attention recommendation with its two fixes,
whatever the domain; when no rule fired at all it returns exactly one
positive recommendation and one matching fix; and both returned lists are
never empty. -/
theorem claim8_recommendation_rules (r : Counters) (lt : String) :
    (0 < r.error_count →
      "⚠️ System errors require attention" ∈ (generateRecommendations r lt).1 ∧
      "Review error logs for patterns" ∈ (generateRecommendations r lt).2 ∧
      "Check system health and resources" ∈ (generateRecommendations r lt).2) ∧
    (noRuleFired r lt →
      generateRecommendations r lt =
        (["✅ No critical issues detected"], ["Continue monitoring system health"])) ∧
    (generateRecommendations r lt).1 ≠ [] ∧ (generateRecommendations r lt).2 ≠ [] := by
  refine ⟨fun he => ?_, fun hq => ?_, ?_, ?_⟩
  · unfold generateRecommendations
    dsimp only
    rw [if_pos he, if_neg (by simp)]
    refine ⟨List.mem_append_right _ (by simp), List.mem_append_right _ (by simp),
      List.mem_append_right _ (by simp)⟩
  · unfold generateRecommendations
    dsimp only
    rw [domainRules_quiet r lt hq]
    have h0 := hq.1
    simp [h0]
  · unfold generateRecommendations
    dsimp only
    split_ifs <;> simp_all
  · unfold generateRecommendations
    dsimp only
    by_cases he : r.error_count > 0
    · rw [if_pos he, if_neg (by simp)]
      simp
    · rw [if_neg he]
      by_cases hd : (domainRules r lt).1 = []
      · rw [if_pos (by simp [hd])]
        simp
      · rw [if_neg (by simp [hd])]
        simpa using domainRules_fixes r lt hd

/-- Witness for C8: the generic error rule fires on a one-error state, and
the quiet state yields exactly the positive recommendation and fix. -/
theorem claim8_witness :
    "⚠️ System errors require attention" ∈
      (generateRecommendations { initCounters 1 "general" with error_count := 1 } "general").1 ∧
    generateRecommendations (initCounters 0 "general") "general" =
      (["✅ No critical issues detected"], ["Continue monitoring system health"]) := by
  refine ⟨((claim8_recommendation_rules _ "general").1 (by decide)).1, ?_⟩
  exact (claim8_recommendation_rules (initCounters 0 "general") "general").2.1
    (by refine ⟨rfl, ?_, ?_, ?_, ?_⟩ <;> intro h <;> simp_all)

lemma head_dropWhile (p : Char → Bool) (l : List Char) :
    ∀ c ∈ (l.dropWhile p).head?, p c = false := by
  induction l with
  | nil => simp [List.dropWhile]
  | cons a t ih =>
    by_cases h : p a
    · simpa [List.dropWhile_cons, h] using ih
    · simp [List.dropWhile_cons, h]

lemma dropWhile_of_head (p : Char → Bool) (l : List Char)
    (h : ∀ c ∈ l.head?, p c = false) : l.dropWhile p = l := by
  cases l with
  | nil => rfl
  | cons a t =>
    have := h a (by simp)
    simp [List.dropWhile_cons, this]

lemma getLast_dropWhile (p : Char → Bool) (l : List Char) (h : l.dropWhile p ≠ []) :
    (l.dropWhile p).getLast? = l.getLast? := by
  induction l with
  | nil => simp [List.dropWhile] at h
  | cons a t ih =>
    by_cases hp : p a
    · rw [List.dropWhile_cons, if_pos hp] at h ⊢
      have ht : t ≠ [] := by
        intro e
        subst e
        simp [List.dropWhile] at h
      obtain ⟨b, t2, rfl⟩ := List.exists_cons_of_ne_nil ht
      rw [ih h, List.getLast?_cons_cons]
    · rw [List.dropWhile_cons, if_neg hp]

lemma pyStripList_head (l : List Char) :
    ∀ c ∈ (pyStripList l).head?, isPySpace c = false := by
  intro c hc
  unfold pyStripList at hc
  rw [List.head?_reverse] at hc
  by_cases hm : List.dropWhile isPySpace (l.dropWhile isPySpace).reverse = []
  · rw [hm] at hc
    simp at hc
  · rw [getLast_dropWhile _ _ hm, List.getLast?_reverse] at hc
    exact head_dropWhile _ _ c hc

lemma pyStripList_last (l : List Char) :
    ∀ c ∈ (pyStripList l).getLast?, isPySpace c = false := by
  intro c hc
  unfold pyStripList at hc
  rw [List.getLast?_reverse] at hc
  exact head_dropWhile _ _ c hc

lemma pyStripList_fixed (l : List Char) (h1 : ∀ c ∈ l.head?, isPySpace c = false)
    (h2 : ∀ c ∈ l.getLast?, isPySpace c = false) : pyStripList l = l := by
  unfold pyStripList
  rw [dropWhile_of_head _ _ h1, dropWhile_of_head _ _ (by rw [List.head?_reverse]; exact h2),
    List.reverse_reverse]

lemma pyStrip_idem (s : String) : pyStrip (pyStrip s) = pyStrip s := by
  unfold pyStrip
  congr 1
  exact pyStripList_fixed _ (pyStripList_head _) (pyStripList_last _)

lemma cleanLogLine_stripped (x : String) : pyStrip (cleanLogLine x) = cleanLogLine x := by
  unfold cleanLogLine
  exact pyStrip_idem _

lemma mem_cleanFilter {s : String} {xs : List String}
    (hs : s ∈ xs.filterMap (fun x => let c := cleanLogLine x; if c = "" then none else some c)) :
    s ≠ "" ∧ pyStrip s = s := by
  rcases List.mem_filterMap.mp hs with ⟨a, ha, hfa⟩
  dsimp only at hfa
  by_cases hc : cleanLogLine a = ""
  · rw [if_pos hc] at hfa
    exact absurd hfa (by simp)
  · rw [if_neg hc, Option.some_inj] at hfa
    rw [← hfa]
    exact ⟨hc, cleanLogLine_stripped a⟩

/-- Claim C9: the logs validator always returns a non-empty list of
non-empty, stripped lines, whatever shape the input takes — multiline
strings are split and cleaned, list entries are coerced through their
string forms, and inputs that clean away entirely are replaced by a
one-element sentinel, so the engine always has at least one line. -/
theorem claim9_validator (v : PyVal) :
    (validateLogs v ≠ [] ∧ ∀ s ∈ validateLogs v, s ≠ "" ∧ pyStrip s = s) ∧
    validateLogs (.str "") = ["Empty log"] ∧
    validateLogs (.list []) = ["No valid logs found"] := by
  refine ⟨⟨?_, fun s hs => ?_⟩, by decide, by decide⟩
  · cases v with
    | str s0 =>
      unfold validateLogs
      dsimp only
      split_ifs <;> simp_all [List.isEmpty_iff]
    | list xs =>
      unfold validateLogs
      dsimp only
      split_ifs <;> simp_all [List.isEmpty_iff]
    | other s0 =>
      unfold validateLogs
      dsimp only
      split_ifs <;> simp_all
  · cases v with
    | str s0 =>
      unfold validateLogs at hs
      dsimp only at hs
      split_ifs at hs with hn h2 h3
      · rw [List.mem_singleton] at hs
        subst hs
        exact ⟨by decide, by decide⟩
      · exact mem_cleanFilter hs
      · rw [List.mem_singleton] at hs
        subst hs
        exact ⟨by decide, by decide⟩
      · rw [List.mem_singleton] at hs
        subst hs
        exact ⟨h3, cleanLogLine_stripped s0⟩
    | list xs =>
      unfold validateLogs at hs
      dsimp only at hs
      split_ifs at hs with he
      · rw [List.mem_singleton] at hs
        subst hs
        exact ⟨by decide, by decide⟩
      · exact mem_cleanFilter hs
    | other s0 =>
      unfold validateLogs at hs
      dsimp only at hs
      split_ifs at hs with hc
      · rw [List.mem_singleton] at hs
        subst hs
        exact ⟨by decide, by decide⟩
      · rw [List.mem_singleton] at hs
        subst hs
        exact ⟨hc, cleanLogLine_stripped s0⟩

/-- Witness for C9 at a concrete messy multiline input. -/
theorem claim9_witness :
    validateLogs (PyVal.str "  a\n\nb  ") ≠ [] ∧ ("a" ≠ "" ∧ pyStrip "a" = "a") := by
  have h := (claim9_validator (PyVal.str "  a\n\nb  ")).1
  have hv : validateLogs (PyVal.str "  a\n\nb  ") = ["a", "b"] := by decide
  exact ⟨h.1, h.2 "a" (by rw [hv]; simp)⟩
